import Mathlib

/-!
# Verification of the hawa-be sheets cache core

Shallow embedding of the TTL read-through cache, the fetch-error
classification, and the field-extraction / numeric-coercion helpers of
the `hawa-be` repository (files `app/services/weather/sheets_cache_service.py`,
`app/services/weather/spreadsheet_service.py`, `app/api/admin.py`,
`app/api/weather.py`), together with theorems settling the specification
claims about them.

Python scalars are modelled by the `Value` type (numbers as exact
rationals, strings, and `None`); timestamps (`time.time()` floats) are
modelled as rationals; a fetch attempt's outcome is passed in explicitly
as an `Except` value whose error carries the exception's string
representation, mirroring `str(e)` in the source.  Python string
primitives (`strip`, `lower`, `upper`, `replace`, the `in` operator,
`float(...)` on strings) are modelled character-list-wise for the ASCII
inputs that occur in this code base.
-/

namespace Hawa

/-- A Python scalar as it appears in a spreadsheet record: a number
(`int`/`float`, modelled exactly as a rational), a string, or `None`. -/
inductive Value where
  | vNum (q : ℚ)
  | vStr (s : String)
  | vNone
deriving DecidableEq, Repr

/-- A spreadsheet record: an insertion-ordered mapping from column name to
scalar value (a Python `dict` row as produced by `df.to_dict('records')` /
`gspread`). -/
abbrev Record := List (String × Value)

/-- The rows returned by one fetch from the upstream sheet. -/
abbrev Rows := List Record

/-- Python's `needle in haystack` on strings: `needle` occurs as a
contiguous substring of `haystack`. -/
def strContains (haystack needle : String) : Bool :=
  decide (needle.toList <:+: haystack.toList)

/-- Python's `s.strip()` on the underlying character list: remove leading
and trailing whitespace. -/
def pyStrip (cs : List Char) : List Char :=
  ((cs.dropWhile Char.isWhitespace).reverse.dropWhile Char.isWhitespace).reverse

/-- Python's `s.lower()` (ASCII model, which covers every column name and
variant used by the source). -/
def pyLower (s : String) : String :=
  ⟨s.toList.map Char.toLower⟩

/-- Python's `s.upper()` (ASCII model). -/
def pyUpper (s : String) : String :=
  ⟨s.toList.map Char.toUpper⟩

/-- Numeric value of a list of decimal digit characters. -/
def digitsVal (cs : List Char) : Nat :=
  cs.foldl (fun n c => n * 10 + (c.toNat - 48)) 0

/-- Mantissa of a decimal literal: digits with at most one dot and at
least one digit overall (`"56"`, `"56.82"`, `"1."`, `".5"`).  Returns the
digit string's value together with the number of fractional digits, so
`"56.82"` parses to `(5682, 2)`. -/
def parseMantissa (cs : List Char) : Option (ℕ × ℕ) :=
  let ip := cs.takeWhile Char.isDigit
  let rest := cs.dropWhile Char.isDigit
  match rest with
  | [] => if ip.isEmpty then none else some (digitsVal ip, 0)
  | '.' :: fp =>
      if fp.all Char.isDigit && !(ip.isEmpty && fp.isEmpty) then
        some (digitsVal ip * 10 ^ fp.length + digitsVal fp, fp.length)
      else none
  | _ => none

/-- Exponent part of a decimal literal (the characters after `e`/`E`):
an optional sign followed by at least one digit. -/
def parseExp (cs : List Char) : Option ℤ :=
  match cs with
  | '+' :: ds =>
      if !ds.isEmpty && ds.all Char.isDigit then some (digitsVal ds : ℤ) else none
  | '-' :: ds =>
      if !ds.isEmpty && ds.all Char.isDigit then some (-(digitsVal ds : ℤ)) else none
  | ds =>
      if !ds.isEmpty && ds.all Char.isDigit then some (digitsVal ds : ℤ) else none

/-- The syntactic parts of a parsed decimal literal: sign, mantissa digit
value, number of fractional digits, exponent. -/
abbrev FloatParts := Bool × ℕ × ℕ × ℤ

/-- Parse a stripped character list as an optionally signed decimal
literal with optional `e`/`E` exponent, returning its parts. -/
def parseFloatParts (cs : List Char) : Option FloatParts :=
  let neg : Bool := match cs with
    | '-' :: _ => true
    | _ => false
  let cs' := match cs with
    | '+' :: rest => rest
    | '-' :: rest => rest
    | rest => rest
  let mant := cs'.takeWhile (fun c => !(c == 'e' || c == 'E'))
  let exps := cs'.dropWhile (fun c => !(c == 'e' || c == 'E'))
  match parseMantissa mant with
  | none => none
  | some (m, k) =>
      match exps with
      | [] => some (neg, m, k, 0)
      | _ :: ecs =>
          match parseExp ecs with
          | none => none
          | some e => some (neg, m, k, e)

/-- The rational value denoted by parsed decimal-literal parts. -/
def partsToRat : FloatParts → ℚ
  | (neg, m, k, e) => (if neg then -1 else 1) * (m : ℚ) * (10 : ℚ) ^ (e - (k : ℤ))

/-- Model of Python's `float(s)` on a string: strips surrounding
whitespace and parses an optionally signed decimal literal with an
optional `e`/`E` exponent, returning `none` where `float` raises
`ValueError`.  (Non-finite spellings such as `"inf"`/`"nan"` and digit
underscores are outside this model; none of the verified claims involve
them.) -/
def pyFloat (s : String) : Option ℚ :=
  (parseFloatParts (pyStrip s.toList)).map partsToRat

/-! ## TTL cache with stale fallback

`SheetsCacheService.get_cached_data` (sheets_cache_service.py) and the
two copies of `_get_cached_sheets_data` (admin.py, weather.py) implement
the same read-through policy; the embedding below is shared by them.
The mutable `dict` cache is an insertion-ordered association list keyed
by the `f"{spreadsheet_id}:{worksheet_name}"` string; `time.time()`
floats are rationals.  The single fetch attempt the body may make
(`SpreadsheetService.read_from_google_sheets`) is passed in as an
`Except` value: `Except.ok rows` for a successful call and
`Except.error e` for a raised exception whose `str(e)` is `e`. -/

/-- The cache: `cache_key ↦ (cached_data, cache_timestamp)`. -/
abbrev Cache := List (String × (Rows × ℚ))

/-- `cache_key in cache` / `cache[cache_key]` lookup. -/
def cacheFind (c : Cache) (k : String) : Option (Rows × ℚ) :=
  match c.find? (fun p => p.1 == k) with
  | some (_, entry) => some entry
  | none => none

/-- `cache[cache_key] = (raw_data, current_time)`: overwrite in place if
the key is present (Python dicts keep the original position), otherwise
append. -/
def cachePut (c : Cache) (k : String) (rows : Rows) (t : ℚ) : Cache :=
  if (c.find? (fun p => p.1 == k)).isSome then
    c.map (fun p => if p.1 == k then (k, (rows, t)) else p)
  else
    c ++ [(k, (rows, t))]

/-- The `"429"` / `"Quota exceeded"` test applied to `str(e)` in the
`except` branch of every copy of the cache helper. -/
def isRateLimited (errorMsg : String) : Bool :=
  strContains errorMsg "429" || strContains errorMsg "Quota exceeded"

/-- The `try`/`except` tail of the cache helper: on success store
`(raw_data, current_time)` and return the rows; on failure return the
cached rows when an entry exists and the error message matches the
rate-limit test, otherwise re-raise. -/
def fetchStep (cache : Cache) (cacheKey : String) (now : ℚ)
    (fetchResult : Except String Rows) : Except String Rows × Cache :=
  match fetchResult with
  | Except.ok rawData => (Except.ok rawData, cachePut cache cacheKey rawData now)
  | Except.error e =>
      match cacheFind cache cacheKey with
      | some (cachedData, _) =>
          if isRateLimited e then (Except.ok cachedData, cache)
          else (Except.error e, cache)
      | none => (Except.error e, cache)

/-- `SheetsCacheService.get_cached_data` / `_get_cached_sheets_data`
(admin.py lines 60–91, weather.py lines 267–296, sheets_cache_service.py
lines 19–57): the TTL read-through policy.  The first component is the
returned rows or the propagated exception message; the second is the
cache mapping after the call. -/
def get_cached_data (ttl : ℚ) (cache : Cache) (cacheKey : String)
    (forceRefresh : Bool) (now : ℚ)
    (fetchResult : Except String Rows) : Except String Rows × Cache :=
  match (if forceRefresh then none else cacheFind cache cacheKey) with
  | some (cachedData, cacheTimestamp) =>
      if now - cacheTimestamp < ttl then (Except.ok cachedData, cache)
      else fetchStep cache cacheKey now fetchResult
  | none => fetchStep cache cacheKey now fetchResult

/-- `True` exactly when the body reaches the `try` block, i.e. issues the
one `SpreadsheetService.read_from_google_sheets` call: on a forced
refresh, a missing entry, or a stale entry. -/
def fetchInvoked (ttl : ℚ) (cache : Cache) (cacheKey : String)
    (forceRefresh : Bool) (now : ℚ) : Bool :=
  match (if forceRefresh then none else cacheFind cache cacheKey) with
  | some (_, cacheTimestamp) => !(decide (now - cacheTimestamp < ttl))
  | none => true

/-- weather.py line 264: the heatmap endpoint's `_sheets_cache: dict = {}`
is a local variable of `get_heatmap_data`, created afresh on every
request, so its inner `_get_cached_sheets_data` always starts from this
empty mapping. -/
def heatmapLocalCache : Cache := []

/-! ## Numeric coercion (`parse_numeric`, spreadsheet_service.py 146–187) -/

/-- `parse_numeric(value, expected_max)` from
`SpreadsheetService.process_bmkg_data`: `None` passes through; a number
above `expected_max` is heuristically divided by 100, then by 10,
keeping the first quotient that is `≤ expected_max` (otherwise it is
returned as is); a string is stripped, its commas are interpreted as a
decimal point (no dot present) or dropped as thousands separators (dot
present), and the result is parsed with `float`, with a parse failure
giving `None`. -/
def parse_numeric (value : Value) (expected_max : ℚ) : Option ℚ :=
  match value with
  | Value.vNone => none
  | Value.vNum num_value =>
      if num_value > expected_max then
        let corrected_100 := num_value / 100
        if corrected_100 ≤ expected_max then some corrected_100
        else
          let corrected_10 := num_value / 10
          if corrected_10 ≤ expected_max then some corrected_10
          else some num_value
      else some num_value
  | Value.vStr s =>
      let value := pyStrip s.toList
      let value' := if value.contains ',' && !value.contains '.' then
                      value.map (fun c => if c == ',' then '.' else c)
                    else if value.contains ',' && value.contains '.' then
                      value.filter (fun c => !(c == ','))
                    else value
      pyFloat ⟨value'⟩

/-! ## Field extraction (`get_field_value`, weather.py 319–332 and
admin.py 375–388) -/

/-- The inner loop of `get_field_value`: scan the record's keys in
insertion order for the first key whose `str(key).lower()` equals
`variant.lower()`. -/
def lookupCI (record : Record) (variant : String) : Option Value :=
  match record with
  | [] => none
  | (k, v) :: rest =>
      if pyLower k == pyLower variant then some v else lookupCI rest variant

/-- The value post-processing `get_field_value` applies to a matched
value before returning it: a string whose stripped form is empty gives
the default, a numeric-looking string is converted with `float`, any
other string is returned as is; `None` gives the default; numbers pass
through. -/
def convertFieldValue (value : Value) (default : Value) : Value :=
  match value with
  | Value.vStr s =>
      if (pyStrip s.toList).isEmpty then default
      else
        match pyFloat s with
        | some q => Value.vNum q
        | none => Value.vStr s
  | Value.vNone => default
  | Value.vNum q => Value.vNum q

/-- `get_field_value(field_variants, default)` from the heatmap
endpoints (weather.py lines 319–332, admin.py lines 375–388): iterate
the variant list, and inside it the record's keys, returning on the
first case-insensitive match. -/
def get_field_value (record : Record) (variants : List String)
    (default : Value) : Value :=
  match variants with
  | [] => default
  | v :: vs =>
      match lookupCI record v with
      | some value => convertFieldValue value default
      | none => get_field_value record vs default

/-! ## Heatmap point construction (`get_heatmap_data`, weather.py
302–395 and admin.py 358–460) -/

/-- Python `float(x)` applied to a scalar: numbers pass through, strings
go through `float(str)`, and `None` (a `TypeError`) or an unparsable
string (a `ValueError`) gives `none`. -/
def pyFloatOf (v : Value) : Option ℚ :=
  match v with
  | Value.vNum q => some q
  | Value.vStr s => pyFloat s
  | Value.vNone => none

/-- `float(x) if x is not None else None`, as used for the `pm2_5`,
`pm10` and `risk_score` fields of the heatmap point dict.  The outer
`some` is absent exactly when `float` raises, which makes the loop skip
the record. -/
def optFloatField (v : Value) : Option (Option ℚ) :=
  match v with
  | Value.vNone => some none
  | _ => (pyFloatOf v).map some

/-- The textual guess both heatmap endpoints derive from the
`Air Quality` column: `risk_level` starts `"low"` and is raised on
`POOR`/`UNHEALTHY`/`MODERATE` substrings of the upper-cased string
(`GOOD` and anything else leave it `"low"`). -/
def riskLevelFromAQ (air_quality : Value) : String :=
  match air_quality with
  | Value.vStr s =>
      let u := pyUpper s
      if strContains u "POOR" || strContains u "UNHEALTHY" then "high"
      else if strContains u "MODERATE" then "moderate"
      else "low"
  | _ => "low"

/-- The final `risk_level`: when the extracted risk score is a number
(`isinstance(risk_score, (int, float))`) the numeric thresholds `≥ 0.7`
/ `≥ 0.4` replace the air-quality guess, otherwise the guess stands. -/
def riskLevelOf (air_quality risk_score : Value) : String :=
  match risk_score with
  | Value.vNum q =>
      if q ≥ 0.7 then "high" else if q ≥ 0.4 then "moderate" else "low"
  | _ => riskLevelFromAQ air_quality

/-- The fields of one heatmap point that carry data: `id`, `location`,
`color` and `device_id` are pure `str(...)` formatting of already
extracted values (they cannot raise and play no part in any claim) and
are left out of the embedding. -/
structure HeatPoint where
  lat : ℚ
  lng : ℚ
  pm2_5 : Option ℚ
  pm10 : Option ℚ
  air_quality : Value
  risk_score : Option ℚ
  risk_level : String
deriving DecidableEq, Repr

/-- The variant list for the risk-score column in both heatmap
endpoints. -/
def riskScoreVariants : List String := ["Risk Score", "risk_score", "Risk", "risk"]

/-- One iteration of the per-record loop of `get_heatmap_data`
(weather.py lines 317–395, admin.py lines 373–460): extract the
coordinates (skipping the record when they are absent or unparsable),
extract the remaining fields, derive `risk_level`, and build the point;
a `float` failure while building the dict raises and the record is
skipped by the surrounding `except Exception: continue`. -/
def buildPoint (record : Record) : Option HeatPoint :=
  let latitude := get_field_value record ["Latitude", "latitude", "lat"] Value.vNone
  let longitude := get_field_value record ["Longitude", "longitude", "lng", "lon"] Value.vNone
  if latitude = Value.vNone ∨ longitude = Value.vNone then none
  else
    match pyFloatOf latitude, pyFloatOf longitude with
    | some lat, some lng =>
        let pm25 := get_field_value record ["PM2.5", "pm2.5", "PM25", "pm25", "PM 2.5"] Value.vNone
        let pm10 := get_field_value record ["PM10", "pm10", "PM 10"] Value.vNone
        let air_quality := get_field_value record
          ["Air Quality", "air_quality", "Air Quality Level", "air_quality_level"]
          (Value.vStr "UNKNOWN")
        let risk_score := get_field_value record riskScoreVariants (Value.vNum 0)
        match optFloatField pm25, optFloatField pm10, optFloatField risk_score with
        | some p25, some p10, some rs =>
            some ⟨lat, lng, p25, p10, air_quality, rs, riskLevelOf air_quality risk_score⟩
        | _, _, _ => none
    | _, _ => none

/-- The string rule of `coerce_numeric` as the specification words it
(§4.4 rule 3 and §8 item 6): trim whitespace; with a comma but no dot,
treat the comma as the decimal separator; with both, treat the comma as
a thousands separator and drop it; then parse as a number, `none` on
failure.  Written from the spec to be compared with the string branch of
`parse_numeric`. -/
def coerce_numeric_string_spec (s : String) : Option ℚ :=
  let trimmed := pyStrip s.toList
  let adjusted :=
    if trimmed.contains ',' && !trimmed.contains '.' then
      trimmed.map (fun c => if c == ',' then '.' else c)
    else if trimmed.contains ',' && trimmed.contains '.' then
      trimmed.filter (fun c => !(c == ','))
    else trimmed
  pyFloat ⟨adjusted⟩

/-- A concrete one-entry cache used by the witnesses: the key
`"sheetid:Sheet1"` holds one row fetched at time 0. -/
def cache0 : Cache := [("sheetid:Sheet1", ([[("PM2.5", Value.vNum 12)]], 0))]

/-- A concrete heatmap record used by the witnesses: valid coordinates, a
`POOR` air-quality reading, and no risk-score column. -/
def rec0 : Record :=
  [("lat", Value.vStr "1.0"), ("lon", Value.vStr "2.0"), ("Air Quality", Value.vStr "POOR")]

/-- The point `buildPoint` produces from `rec0`. -/
def pt0 : HeatPoint :=
  ⟨1, 2, none, none, Value.vStr "POOR", some 0, "low"⟩

/-! ## Claims about the read-through cache -/

/-- C1: for every key for which the cache holds an entry (fresh or
stale), if the fetch raises an error classified as rate-limited, the
read-through operation returns the previously cached rows unchanged and
does not update the entry's stored timestamp (the cache mapping is
returned untouched); if no entry exists for the key, the rate-limited
error is propagated to the caller. -/
theorem c1_rate_limited_fallback (ttl : ℚ) (cache : Cache) (cacheKey : String)
    (forceRefresh : Bool) (now : ℚ) (e : String) :
    (∀ rows ts, cacheFind cache cacheKey = some (rows, ts) → isRateLimited e = true →
      get_cached_data ttl cache cacheKey forceRefresh now (Except.error e) =
        (Except.ok rows, cache)) ∧
    (cacheFind cache cacheKey = none → isRateLimited e = true →
      get_cached_data ttl cache cacheKey forceRefresh now (Except.error e) =
        (Except.error e, cache)) := by
  constructor
  · intro rows ts hfind hrl
    cases forceRefresh <;> simp [get_cached_data, fetchStep, hfind, hrl]
  · intro hfind _
    cases forceRefresh <;> simp [get_cached_data, fetchStep, hfind]

/-- Witness for C1 at a concrete cache, key and quota error: the stale
entry (fetched at 0, read at 100 with TTL 30) is served on the
rate-limited failure, and the same failure on an empty cache is
propagated. -/
theorem c1_rate_limited_fallback_witness :
    get_cached_data 30 cache0 "sheetid:Sheet1" false 100
        (Except.error "APIError: [429]: Quota exceeded for quota metric") =
      (Except.ok [[("PM2.5", Value.vNum 12)]], cache0) ∧
    get_cached_data 30 [] "sheetid:Sheet1" false 100
        (Except.error "APIError: [429]: Quota exceeded for quota metric") =
      (Except.error "APIError: [429]: Quota exceeded for quota metric", []) :=
  ⟨(c1_rate_limited_fallback 30 cache0 "sheetid:Sheet1" false 100 _).1 _ 0
      (by decide) (by decide),
   (c1_rate_limited_fallback 30 [] "sheetid:Sheet1" false 100 _).2
      (by decide) (by decide)⟩

/-- C2: for every key whose cache entry satisfies
`now - fetched_at < 30`, a read-through call with `force_refresh = false`
makes no fetcher call (the result is the same whatever the fetch would
have produced, and the `try` block is never reached), returns exactly the
cached rows, and leaves the cache unchanged. -/
theorem c2_fresh_hit_no_fetch (cache : Cache) (cacheKey : String) (now : ℚ)
    (rows : Rows) (ts : ℚ) (fetchResult : Except String Rows)
    (hfind : cacheFind cache cacheKey = some (rows, ts)) (hfresh : now - ts < 30) :
    get_cached_data 30 cache cacheKey false now fetchResult = (Except.ok rows, cache) ∧
    fetchInvoked 30 cache cacheKey false now = false := by
  constructor
  · simp [get_cached_data, hfind, hfresh]
  · simp [fetchInvoked, hfind, hfresh]

/-- Witness for C2: a fresh entry (age 10 < 30) is served untouched even
when the would-be fetch is a failure. -/
theorem c2_fresh_hit_no_fetch_witness :
    get_cached_data 30 cache0 "sheetid:Sheet1" false 10 (Except.error "boom") =
      (Except.ok [[("PM2.5", Value.vNum 12)]], cache0) ∧
    fetchInvoked 30 cache0 "sheetid:Sheet1" false 10 = false :=
  c2_fresh_hit_no_fetch cache0 "sheetid:Sheet1" 10 [[("PM2.5", Value.vNum 12)]] 0 _
    (by decide) (by norm_num)

/-- C3: whenever the fetch path is taken (forced refresh, missing entry,
or stale entry) and the fetch fails with an error not classified as
rate-limited, the read-through operation propagates that error and
leaves the cache unchanged. -/
theorem c3_other_error_propagates (ttl : ℚ) (cache : Cache) (cacheKey : String)
    (forceRefresh : Bool) (now : ℚ) (e : String)
    (hother : isRateLimited e = false)
    (hpath : forceRefresh = true ∨ cacheFind cache cacheKey = none ∨
      ∃ rows ts, cacheFind cache cacheKey = some (rows, ts) ∧ ttl ≤ now - ts) :
    get_cached_data ttl cache cacheKey forceRefresh now (Except.error e) =
      (Except.error e, cache) := by
  rcases hpath with h | h | ⟨rows, ts, hfind, hstale⟩
  · subst h
    rcases hcase : cacheFind cache cacheKey with - | ⟨rows, ts⟩ <;>
      simp [get_cached_data, fetchStep, hcase, hother]
  · cases forceRefresh <;> simp [get_cached_data, fetchStep, h, hother]
  · cases forceRefresh <;> simp [get_cached_data, fetchStep, hfind, hother, not_lt.mpr hstale]

/-- Witness for C3: a credentials-style failure on a stale entry is
propagated instead of being masked by the cached rows. -/
theorem c3_other_error_propagates_witness :
    get_cached_data 30 cache0 "sheetid:Sheet1" false 100
        (Except.error "PermissionError: not authorized") =
      (Except.error "PermissionError: not authorized", cache0) :=
  c3_other_error_propagates 30 cache0 "sheetid:Sheet1" false 100 _ (by decide)
    (Or.inr (Or.inr ⟨[[("PM2.5", Value.vNum 12)]], 0, by decide, by norm_num⟩))

/-- C4: with a cached entry present and the fetch path taken, a fetch
failure falls back to the cached rows (is classified rate-limited) if
and only if `str(e)` contains the substring `"429"` or the substring
`"Quota exceeded"`; every other failure is propagated (classified
Other). -/
theorem c4_rate_limit_classification (ttl : ℚ) (cache : Cache) (cacheKey : String)
    (now : ℚ) (rows : Rows) (ts : ℚ) (e : String)
    (hfind : cacheFind cache cacheKey = some (rows, ts)) :
    (get_cached_data ttl cache cacheKey true now (Except.error e)).1 = Except.ok rows ↔
      (strContains e "429" = true ∨ strContains e "Quota exceeded" = true) := by
  constructor
  · intro h
    by_contra hno
    push_neg at hno
    have hrl : isRateLimited e = false := by
      simp [isRateLimited, hno.1, hno.2]
    simp [get_cached_data, fetchStep, hfind, hrl] at h
  · intro h
    have hrl : isRateLimited e = true := by
      rcases h with h | h <;> simp [isRateLimited, h]
    simp [get_cached_data, fetchStep, hfind, hrl]

/-- Witness for C4: an error whose text contains `"429"` (but not the
quota phrase) triggers the stale fallback. -/
theorem c4_rate_limit_classification_witness :
    (get_cached_data 30 cache0 "sheetid:Sheet1" true 5
        (Except.error "HTTP 429: too many requests")).1 =
      Except.ok [[("PM2.5", Value.vNum 12)]] :=
  (c4_rate_limit_classification 30 cache0 "sheetid:Sheet1" 5 _ 0 _
      (by decide)).mpr (Or.inl (by decide))

/-- C9: in the `/weather/heatmap` endpoint the cache dict is a local
variable created afresh on every request, so the inner cached-read
helper starts from the empty mapping: it always reaches the fetch,
returns exactly the fetch outcome regardless of `force_refresh` (the
fresh-hit and stale-fallback branches are unreachable), and every fetch
failure propagates. -/
theorem c9_heatmap_local_cache (cacheKey : String) (forceRefresh : Bool) (now : ℚ)
    (fetchResult : Except String Rows) :
    get_cached_data 30 heatmapLocalCache cacheKey forceRefresh now fetchResult =
      (fetchResult,
        match fetchResult with
        | Except.ok rows => cachePut heatmapLocalCache cacheKey rows now
        | Except.error _ => heatmapLocalCache) ∧
    fetchInvoked 30 heatmapLocalCache cacheKey forceRefresh now = true := by
  constructor
  · cases fetchResult <;>
      cases forceRefresh <;>
        simp [get_cached_data, fetchStep, heatmapLocalCache, cacheFind]
  · cases forceRefresh <;> simp [fetchInvoked, heatmapLocalCache, cacheFind]

/-! ## Claims about numeric coercion -/

/-- Counterexample to C5 as stated: the spec's arrow example
`coerce_numeric(999999, 500.0) → 9999.99` is false — neither division
brings 999999 under 500, so the code returns the original 999999; and
the correction is not tried on mere magnitude: -5682 has magnitude above
500 and -5682/100 = -56.82 would fall within 500, yet the code compares
the signed value (`num_value > expected_max` is false) and returns -5682
uncorrected. -/
theorem c5_numeric_correction_counterexample :
    parse_numeric (Value.vNum 999999) 500 = some 999999 ∧
    some (999999 : ℚ) ≠ some (9999.99 : ℚ) ∧
    parse_numeric (Value.vNum (-5682)) 500 = some (-5682) ∧
    some ((-5682 : ℚ)) ≠ some ((-56.82 : ℚ)) :=
  ⟨by rw [parse_numeric]; norm_num, by norm_num,
   by rw [parse_numeric]; norm_num, by norm_num⟩

/-- C5 (amended): for every already-numeric value and expected_max,
`coerce_numeric` attempts correction exactly when the signed value
exceeds `expected_max`, returning value/100 if that is `≤ expected_max`,
else value/10 if that is `≤ expected_max`, else the original value
uncorrected; in particular `coerce_numeric("56,82", 500.0) = 56.82`,
`coerce_numeric(5682, 500.0) = 56.82`, and
`coerce_numeric(999999, 500.0) = 999999` (returned uncorrected). -/
theorem c5_numeric_correction_amended :
    (∀ q m : ℚ, parse_numeric (Value.vNum q) m =
      some (if q > m then
              (if q / 100 ≤ m then q / 100 else if q / 10 ≤ m then q / 10 else q)
            else q)) ∧
    parse_numeric (Value.vStr "56,82") 500 = some (56.82 : ℚ) ∧
    parse_numeric (Value.vNum 5682) 500 = some (56.82 : ℚ) ∧
    parse_numeric (Value.vNum 999999) 500 = some 999999 := by
  refine ⟨fun q m => by simp only [parse_numeric]; split_ifs <;> rfl, ?_, ?_, ?_⟩
  · have h : parse_numeric (Value.vStr "56,82") 500 = pyFloat "56.82" := by
      simp only [parse_numeric]
      congr 1
    rw [h, pyFloat,
      show parseFloatParts (pyStrip "56.82".toList) = some (false, 5682, 2, 0) from by decide]
    show some (partsToRat (false, 5682, 2, 0)) = _
    rw [partsToRat]
    norm_num
  · rw [parse_numeric]; norm_num
  · rw [parse_numeric]; norm_num

/-- C8: for every string input, `coerce_numeric` behaves exactly as the
spec's string rule (trim; comma-as-decimal-separator when no dot; drop
commas when both appear; parse, with failure giving `None` — the
`Option` result models `float`'s `ValueError` being caught), for every
`expected_max`; and a `None` input yields `None`. -/
theorem c8_string_coercion :
    (∀ (s : String) (m : ℚ),
      parse_numeric (Value.vStr s) m = coerce_numeric_string_spec s) ∧
    (∀ m : ℚ, parse_numeric Value.vNone m = none) :=
  ⟨fun _ _ => rfl, fun _ => rfl⟩

/-! ## Helper lemmas shared by the extraction claims -/

/-- If no key of the record matches the variant case-insensitively, the
inner scan finds nothing. -/
theorem lookupCI_eq_none (record : Record) (v : String)
    (h : ∀ kv ∈ record, pyLower kv.1 ≠ pyLower v) : lookupCI record v = none := by
  induction record with
  | nil => rfl
  | cons kv rest ih =>
      rw [lookupCI, if_neg]
      · exact ih fun p hp => h p (List.mem_cons_of_mem _ hp)
      · simp only [beq_iff_eq]
        exact h kv (List.mem_cons_self _ _)

/-- When no variant matches any key, `get_field_value` returns the
default. -/
theorem get_field_value_no_match (record : Record) (variants : List String) (d : Value)
    (h : ∀ v ∈ variants, lookupCI record v = none) :
    get_field_value record variants d = d := by
  induction variants with
  | nil => rfl
  | cons v vs ih =>
      rw [get_field_value, h v (List.mem_cons_self _ _)]
      exact ih fun u hu => h u (List.mem_cons_of_mem _ hu)

/-- Unfolding step: a variant with no matching key is skipped. -/
theorem get_field_value_cons_none (record : Record) (v : String) (vs : List String)
    (d : Value) (h : lookupCI record v = none) :
    get_field_value record (v :: vs) d = get_field_value record vs d := by
  rw [get_field_value, h]

/-- Unfolding step: the first variant with a matching key ends the scan,
whatever the later variants are. -/
theorem get_field_value_cons_some (record : Record) (v : String) (vs : List String)
    (d : Value) (x : Value) (h : lookupCI record v = some x) :
    get_field_value record (v :: vs) d = convertFieldValue x d := by
  rw [get_field_value, h]

/-- A matched non-blank string that parses as a float is returned as that
number. -/
theorem convertFieldValue_parsed (s : String) (d : Value) (q : ℚ)
    (hne : (pyStrip s.toList).isEmpty = false) (hp : pyFloat s = some q) :
    convertFieldValue (Value.vStr s) d = Value.vNum q := by
  simp only [convertFieldValue, hne, Bool.false_eq_true, if_false, hp]

/-- A matched non-blank string that does not parse as a float is returned
as is. -/
theorem convertFieldValue_unparsed (s : String) (d : Value)
    (hne : (pyStrip s.toList).isEmpty = false) (hp : pyFloat s = none) :
    convertFieldValue (Value.vStr s) d = Value.vStr s := by
  simp only [convertFieldValue, hne, Bool.false_eq_true, if_false, hp]

/-- Evaluating `pyFloat` through its decidable parsing front end. -/
theorem pyFloat_parts (s : String) (p : FloatParts)
    (h : parseFloatParts (pyStrip s.toList) = some p) :
    pyFloat s = some (partsToRat p) := by
  rw [pyFloat, h]
  rfl

/-- The spec's §8 item-7 extraction example, evaluated on the code: the
first variant `"Latitude"` matches the record key `"LATITUDE"`
case-insensitively and its value `"3.4"` is float-converted. -/
theorem eval_extract_lat :
    get_field_value [("Lat", Value.vStr "1.2"), ("LATITUDE", Value.vStr "3.4")]
      ["Latitude", "lat"] Value.vNone = Value.vNum (3.4 : ℚ) := by
  have h34 : pyFloat "3.4" = some (3.4 : ℚ) := by
    rw [pyFloat_parts "3.4" (false, 34, 1, 0) (by decide)]
    norm_num [partsToRat]
  rw [get_field_value_cons_some _ _ _ _ (Value.vStr "3.4") (by decide),
      convertFieldValue_parsed _ _ _ (by decide) h34]

/-! ## Claims about field extraction -/

/-- Counterexample to C6 as stated: on
`{"Lat": "1.2", "LATITUDE": "3.4"}` with variants `["Latitude", "lat"]`
the code does not return `"1.2"` — the earlier variant `"Latitude"`
already matches the key `"LATITUDE"`. -/
theorem c6_extract_example_counterexample :
    get_field_value [("Lat", Value.vStr "1.2"), ("LATITUDE", Value.vStr "3.4")]
      ["Latitude", "lat"] Value.vNone ≠ Value.vStr "1.2" := by
  rw [eval_extract_lat]
  exact fun h => Value.noConfusion h

/-- C6 (amended): `extract({"Lat": "1.2", "LATitude": "3.4"}, ["Latitude",
"lat"], None)` returns the number 3.4: the first-priority variant
`"Latitude"` matches key `"LATITUDE"` case-insensitively (the variant
`"lat"` is never reached), and the matched string `"3.4"` is converted to
a float by the extraction helper. -/
theorem c6_extract_example_amended :
    get_field_value [("Lat", Value.vStr "1.2"), ("LATITUDE", Value.vStr "3.4")]
      ["Latitude", "lat"] Value.vNone = Value.vNum (3.4 : ℚ) :=
  eval_extract_lat

/-- Counterexample to C7 as stated: the default is not returned *exactly*
when no variant matches — on the record `{"lat": None}` with variants
`["lat"]` and default `7`, the variant `"lat"` does match the key
`"lat"`, yet the matched `None` value makes the helper return the
default `7`. -/
theorem c7_variant_priority_counterexample :
    get_field_value [("lat", Value.vNone)] ["lat"] (Value.vNum 7) = Value.vNum 7 ∧
    lookupCI [("lat", Value.vNone)] "lat" = some Value.vNone := by
  constructor <;> decide

/-- C7 (amended): field extraction iterates the variant list outermost
and the record's keys innermost, returning on the first case-insensitive
match — an earlier-listed variant always wins over a later-listed one
(the result of a match ignores the remaining variants entirely) — and
the default is returned whenever no variant matches any key (it may
additionally be returned when the first match's value is null or a blank
string). -/
theorem c7_variant_priority_amended (record : Record) (d : Value) :
    (∀ v vs x, lookupCI record v = some x →
      get_field_value record (v :: vs) d = convertFieldValue x d) ∧
    (∀ v vs, lookupCI record v = none →
      get_field_value record (v :: vs) d = get_field_value record vs d) ∧
    (∀ variants, (∀ v ∈ variants, ∀ kv ∈ record, pyLower kv.1 ≠ pyLower v) →
      get_field_value record variants d = d) := by
  refine ⟨?_, ?_, ?_⟩
  · intro v vs x h
    rw [get_field_value, h]
  · intro v vs h
    rw [get_field_value, h]
  · intro variants h
    exact get_field_value_no_match record variants d fun v hv =>
      lookupCI_eq_none record v fun kv hkv => h v hv kv hkv

/-- Witness for C7 at concrete inputs: a matching first variant ends the
scan whatever follows it, and a variant list with no match at all yields
the default. -/
theorem c7_variant_priority_witness :
    get_field_value [("Lat", Value.vStr "x")] ["lat", "zzz"] Value.vNone =
      convertFieldValue (Value.vStr "x") Value.vNone ∧
    get_field_value [("Lat", Value.vStr "x")] ["foo", "bar"] Value.vNone = Value.vNone :=
  ⟨(c7_variant_priority_amended [("Lat", Value.vStr "x")] Value.vNone).1
      "lat" ["zzz"] _ (by decide),
   (c7_variant_priority_amended [("Lat", Value.vStr "x")] Value.vNone).2.2
      ["foo", "bar"] (by decide)⟩

/-! ## Claim about the heatmap risk level -/

/-- C10: every heatmap record that produces a point but has no column
case-insensitively matching any risk-score variant (`Risk Score`,
`risk_score`, `Risk`, `risk`) gets the numeric default 0.0 as its risk
score, so the numeric-threshold rule fires and forces
`risk_level = "low"`, overriding any level derived from the textual
air-quality field. -/
theorem c10_missing_risk_column_low (record : Record) (pt : HeatPoint)
    (hbuild : buildPoint record = some pt)
    (hnone : ∀ v ∈ riskScoreVariants, ∀ kv ∈ record, pyLower kv.1 ≠ pyLower v) :
    pt.risk_level = "low" ∧ pt.risk_score = some 0 := by
  have hrs : get_field_value record riskScoreVariants (Value.vNum 0) = Value.vNum 0 :=
    get_field_value_no_match _ _ _ fun v hv =>
      lookupCI_eq_none record v fun kv hkv => hnone v hv kv hkv
  simp only [buildPoint, hrs, optFloatField, pyFloatOf, Option.map, riskLevelOf] at hbuild
  rw [if_neg (by norm_num : ¬ ((0 : ℚ) ≥ 0.7)),
      if_neg (by norm_num : ¬ ((0 : ℚ) ≥ 0.4))] at hbuild
  split at hbuild
  · exact absurd hbuild (by simp)
  · split at hbuild
    · split at hbuild
      · cases hbuild
        refine ⟨rfl, ?_⟩
        simp_all
      all_goals exact absurd hbuild (by simp)
    all_goals exact absurd hbuild (by simp)

/-- `buildPoint` on the concrete record `rec0` (coordinates `1.0`/`2.0`,
air quality `POOR`, no risk column) produces `pt0`. -/
theorem eval_buildPoint_rec0 : buildPoint rec0 = some pt0 := by
  have h10 : pyFloat "1.0" = some 1 := by
    rw [pyFloat_parts "1.0" (false, 10, 1, 0) (by decide)]
    norm_num [partsToRat]
  have h20 : pyFloat "2.0" = some 2 := by
    rw [pyFloat_parts "2.0" (false, 20, 1, 0) (by decide)]
    norm_num [partsToRat]
  have hPOOR : pyFloat "POOR" = none := by
    rw [pyFloat, show parseFloatParts (pyStrip "POOR".toList) = none from by decide]
    rfl
  have hlat : get_field_value rec0 ["Latitude", "latitude", "lat"] Value.vNone =
      Value.vNum 1 := by
    rw [get_field_value_cons_none _ _ _ _ (by decide),
        get_field_value_cons_none _ _ _ _ (by decide),
        get_field_value_cons_some _ _ _ _ (Value.vStr "1.0") (by decide),
        convertFieldValue_parsed _ _ _ (by decide) h10]
  have hlng : get_field_value rec0 ["Longitude", "longitude", "lng", "lon"] Value.vNone =
      Value.vNum 2 := by
    rw [get_field_value_cons_none _ _ _ _ (by decide),
        get_field_value_cons_none _ _ _ _ (by decide),
        get_field_value_cons_none _ _ _ _ (by decide),
        get_field_value_cons_some _ _ _ _ (Value.vStr "2.0") (by decide),
        convertFieldValue_parsed _ _ _ (by decide) h20]
  have haq : get_field_value rec0
      ["Air Quality", "air_quality", "Air Quality Level", "air_quality_level"]
      (Value.vStr "UNKNOWN") = Value.vStr "POOR" := by
    rw [get_field_value_cons_some _ _ _ _ (Value.vStr "POOR") (by decide),
        convertFieldValue_unparsed _ _ (by decide) hPOOR]
  have hpm25 : get_field_value rec0 ["PM2.5", "pm2.5", "PM25", "pm25", "PM 2.5"]
      Value.vNone = Value.vNone := by decide
  have hpm10 : get_field_value rec0 ["PM10", "pm10", "PM 10"] Value.vNone =
      Value.vNone := by decide
  have hrs : get_field_value rec0 riskScoreVariants (Value.vNum 0) = Value.vNum 0 := by
    decide
  have h07 : ¬ ((0 : ℚ) ≥ 0.7) := by norm_num
  have h04 : ¬ ((0 : ℚ) ≥ 0.4) := by norm_num
  simp +decide [buildPoint, hlat, hlng, haq, hpm25, hpm10, hrs, riskLevelOf,
    optFloatField, pyFloatOf, h07, h04, pt0]

/-- Witness for C10: the concrete record `rec0` reads `POOR` air quality
but has no risk column, and its point comes out with
`risk_level = "low"` and `risk_score = 0.0`. -/
theorem c10_missing_risk_column_low_witness :
    buildPoint rec0 = some pt0 ∧ pt0.risk_level = "low" ∧ pt0.risk_score = some 0 :=
  ⟨eval_buildPoint_rec0,
   (c10_missing_risk_column_low rec0 pt0 eval_buildPoint_rec0 (by decide)).1,
   (c10_missing_risk_column_low rec0 pt0 eval_buildPoint_rec0 (by decide)).2⟩

end Hawa
